import Mathlib

/-!
Verification of the agent-from-scratch core: the durable message store
(`src/memory.ts`) and the model-invocation function (`runLLM`).

The TypeScript source is shallowly embedded: the ambient identity and clock
generators (`uuidv4`, `new Date().toISOString()`) become an explicit
generator state threaded through the enrichment functions, the lowdb
document becomes a `Data` value, and the chat-completion endpoint becomes
an abstract function from requests to responses.
-/

namespace Agent

/-- The role of a conversational message: `system | user | assistant | tool`. -/
inductive Role where
  | system
  | user
  | assistant
  | tool
  deriving DecidableEq, Repr

/-- `AIMessage`: the atomic conversational unit of the repository
(`role`, `content`, and an optional `tool_call_id` used by tool messages). -/
structure AIMessage where
  role : Role
  content : String
  tool_call_id : Option String := none
  deriving DecidableEq, Repr

/-- `MessageWithMetadata` (memory.ts line 11): an `AIMessage` plus the two
metadata fields `id` and `createdAt`.  The JS object spread is modelled by a
flat structure sharing the message fields. -/
structure MessageWithMetadata where
  role : Role
  content : String
  tool_call_id : Option String
  id : String
  createdAt : String
  deriving DecidableEq, Repr

/-- Modelled from the spec: the ambient `IdentityGenerator` and `Clock`
(spec section 9) backing `uuidv4()` and `new Date().toISOString()`, which are
external libraries not in `src/`.  Each enrichment call draws the id and the
timestamp at the current position `pos` and advances `pos` by one. -/
structure Gen where
  ids : Nat → String
  clock : Nat → String
  pos : Nat

/-- `addMetadata` (memory.ts lines 27-31): spreads the message and adds a
freshly generated `id` and `createdAt`, consuming one generator draw. -/
def addMetadata (message : AIMessage) (g : Gen) : MessageWithMetadata × Gen :=
  ({ role := message.role
     content := message.content
     tool_call_id := message.tool_call_id
     id := g.ids g.pos
     createdAt := g.clock g.pos },
   { g with pos := g.pos + 1 })

/-- `removeMetadata` (memory.ts lines 43-46): destructures away `id` and
`createdAt` and returns the remaining message fields. -/
def removeMetadata (message : MessageWithMetadata) : AIMessage :=
  { role := message.role
    content := message.content
    tool_call_id := message.tool_call_id }

/-- The lowdb document shape `Data` (memory.ts line 54): a single
`messages` array of enriched messages. -/
structure Data where
  messages : List MessageWithMetadata
  deriving DecidableEq, Repr

/-- `defaultData` (memory.ts line 59): the empty store a fresh database
file is initialized to. -/
def defaultData : Data := { messages := [] }

/-- `messages.map(addMetadata)` in `addMessages`: JavaScript `Array.map`
calls `addMetadata` left to right, so each element consumes the next
generator draw in input order. -/
def addMetadataList : List AIMessage → Gen → List MessageWithMetadata × Gen
  | [], g => ([], g)
  | m :: ms, g =>
    let (sm, g1) := addMetadata m g
    let (sms, g2) := addMetadataList ms g1
    (sm :: sms, g2)

/-- `addMessages` (memory.ts lines 85-90): enriches each input message and
appends the enriched messages to the end of the stored array. -/
def addMessages (messages : List AIMessage) (d : Data) (g : Gen) : Data × Gen :=
  let (messagesWithMetadata, g1) := addMetadataList messages g
  ({ messages := d.messages ++ messagesWithMetadata }, g1)

/-- `getMessages` (memory.ts lines 101-104): returns every stored message
with its metadata stripped, in storage order. -/
def getMessages (d : Data) : List AIMessage :=
  d.messages.map removeMetadata

/-- `saveToolResponse` (memory.ts lines 128-135): appends the single
`role = tool` message carrying the tool response and its `tool_call_id`. -/
def saveToolResponse (toolCallId : String) (toolResponse : String)
    (d : Data) (g : Gen) : Data × Gen :=
  addMessages [{ role := .tool, content := toolResponse,
                 tool_call_id := some toolCallId }] d g

/-- Modelled from the spec: the lowdb `db.write` persistence step of
`addMessages` (memory.ts line 89).  lowdb is an external library; per spec
sections 7 and 8 a write either durably records the whole updated document
or fails leaving the on-disk state unchanged.  `writeOk` selects which.
The result is the operation outcome, the on-disk state afterwards, and the
advanced generator. -/
def addMessagesPersist (messages : List AIMessage) (persisted : Data)
    (g : Gen) (writeOk : Bool) : Except String Unit × Data × Gen :=
  let (newData, g1) := addMessages messages persisted g
  if writeOk then (.ok (), newData, g1)
  else (.error "PersistenceError", persisted, g1)

/- Round-trip helper lemmas. -/

theorem removeMetadata_addMetadata (m : AIMessage) (g : Gen) :
    removeMetadata (addMetadata m g).1 = m := rfl

theorem addMetadataList_strip (msgs : List AIMessage) (g : Gen) :
    ((addMetadataList msgs g).1).map removeMetadata = msgs := by
  induction msgs generalizing g with
  | nil => rfl
  | cons m ms ih =>
    simp [addMetadataList, removeMetadata_addMetadata, ih]

theorem getMessages_addMessages (msgs : List AIMessage) (d : Data) (g : Gen) :
    getMessages (addMessages msgs d g).1 = getMessages d ++ msgs := by
  simp [getMessages, addMessages, addMetadataList_strip]

/- Invocation component (`runLLM`, src/unnamed/part_000). -/

/-- `ToolDescriptor`: the `{name, parameters}` pair supplied to `runLLM`
(part_000 line 24).  The zod parameter schema is opaque to this core, so it
is embedded as its serialized form. -/
structure ToolDescriptor where
  name : String
  parameters : String
  deriving DecidableEq, Repr

/-- The wire-shape function definition inside a formatted tool. -/
structure FunctionDef where
  name : String
  parameters : String
  deriving DecidableEq, Repr

/-- A tool definition in the endpoint's wire shape, as produced by
`zodFunction`. -/
structure FormattedTool where
  type : String
  function : FunctionDef
  deriving DecidableEq, Repr

/-- Modelled from the spec: `zodFunction` from `openai/helpers/zod` (an
external library, part_000 line 26) losslessly translates a descriptor into
the endpoint's tool-definition wire shape, `type = "function"` with the
same name and parameter schema (spec section 6). -/
def zodFunction (tool : ToolDescriptor) : FormattedTool :=
  { type := "function"
    function := { name := tool.name, parameters := tool.parameters } }

/-- The chat-completion request body built by `runLLM`
(part_000 lines 28-41). -/
structure ChatRequest where
  model : String
  temperature : Rat
  messages : List AIMessage
  tools : List FormattedTool
  tool_choice : String
  parallel_tool_calls : Bool
  deriving DecidableEq, Repr

/-- The model list (part_000 lines 7-13). -/
def models : List String :=
  ["gpt-4o-mini", "mistral-nemo:latest", "nemotron-mini:latest",
   "codellama:13b", "llama3.1:latest"]

/-- The default model, `models[1]` (part_000 line 16). -/
def defaultModel : String := models.getD 1 ""

/-- The default temperature, `0.1` (part_000 line 18). -/
def defaultTemperature : Rat := 1 / 10

/-- The request `runLLM` submits to `localai.chat.completions.create`
(part_000 lines 28-41): one system message (content supplied externally by
`@src/systemPrompt`) prepended to the given messages, the formatted tools,
and the two fixed policy flags. -/
def mkRequest (systemPrompt : String) (model : String) (temperature : Rat)
    (messages : List AIMessage) (tools : List ToolDescriptor) : ChatRequest :=
  { model := model
    temperature := temperature
    messages :=
      { role := .system, content := systemPrompt, tool_call_id := none }
        :: messages
    tools := tools.map zodFunction
    tool_choice := "auto"
    parallel_tool_calls := false }

/-- One element of the endpoint response's `choices` array. -/
structure Choice where
  message : AIMessage
  deriving DecidableEq, Repr

/-- The endpoint response shape: a list of completion choices. -/
structure ChatResponse where
  choices : List Choice
  deriving DecidableEq, Repr

/-- The reply extraction `response.choices[0].message` (part_000 line 43).
The unguarded JavaScript index access is embedded as the fallible `[0]?`,
returning `none` exactly when the access would be out of bounds. -/
def extractReply (response : ChatResponse) : Option AIMessage :=
  (response.choices[0]?).map Choice.message

/-- `runLLM` (part_000 lines 15-44) with the endpoint abstracted as a
function: build the request, submit it, extract the first choice's
message. -/
def runLLM (endpoint : ChatRequest → ChatResponse) (systemPrompt : String)
    (model : String) (temperature : Rat) (messages : List AIMessage)
    (tools : List ToolDescriptor) : Option AIMessage :=
  extractReply (endpoint (mkRequest systemPrompt model temperature messages tools))

/- Claim theorems. -/

/-- C1: stripping metadata after enriching returns exactly the original
message: `removeMetadata (addMetadata m) = m` for every message `m` and
every generator state. -/
theorem strip_enrich_roundtrip (m : AIMessage) (g : Gen) :
    removeMetadata (addMetadata m g).1 = m :=
  removeMetadata_addMetadata m g

/-- C2: after `addMessages [m1, m2]` the retrieved history is the previous
history followed by `m1` then `m2` in that order, and the two appended
stored messages drew their `id` and `createdAt` from two distinct,
successive generator positions (each independently generated). -/
theorem addMessages_pair_order_and_fresh_metadata
    (m1 m2 : AIMessage) (d : Data) (g : Gen) :
    getMessages (addMessages [m1, m2] d g).1 = getMessages d ++ [m1, m2] ∧
    ((addMetadataList [m1, m2] g).1).map MessageWithMetadata.id
      = [g.ids g.pos, g.ids (g.pos + 1)] ∧
    ((addMetadataList [m1, m2] g).1).map MessageWithMetadata.createdAt
      = [g.clock g.pos, g.clock (g.pos + 1)] := by
  refine ⟨getMessages_addMessages [m1, m2] d g, ?_, ?_⟩ <;>
    simp [addMetadataList, addMetadata]

/-- C3: `saveToolResponse toolCallId toolResult` appends exactly one
message, and the last stored message, stripped of metadata, is the tool
message `{role := tool, content := toolResult, tool_call_id := toolCallId}`. -/
theorem saveToolResponse_appends_tool_message
    (toolCallId toolResult : String) (d : Data) (g : Gen) :
    ((saveToolResponse toolCallId toolResult d g).1).messages.length
      = d.messages.length + 1 ∧
    (((saveToolResponse toolCallId toolResult d g).1).messages.getLast?).map
        removeMetadata
      = some { role := .tool, content := toolResult,
               tool_call_id := some toolCallId } := by
  constructor <;>
    simp [saveToolResponse, addMessages, addMetadataList, addMetadata,
      removeMetadata]

/-- C4: for every input, the request submitted by `runLLM` carries
`tool_choice = "auto"` and `parallel_tool_calls = false`. -/
theorem request_policy_flags (systemPrompt model : String)
    (temperature : Rat) (messages : List AIMessage)
    (tools : List ToolDescriptor) :
    (mkRequest systemPrompt model temperature messages tools).tool_choice
      = "auto" ∧
    (mkRequest systemPrompt model temperature messages tools).parallel_tool_calls
      = false :=
  ⟨rfl, rfl⟩

/-- C5: the message sequence of the submitted request is exactly one system
message with the externally supplied system-prompt content, followed by the
given messages unchanged and in order. -/
theorem request_messages_shape (systemPrompt model : String)
    (temperature : Rat) (messages : List AIMessage)
    (tools : List ToolDescriptor) :
    (mkRequest systemPrompt model temperature messages tools).messages
      = { role := .system, content := systemPrompt, tool_call_id := none }
          :: messages :=
  rfl

/-- C6: with `tools = []` the request carries no tool definitions and
`tool_choice` is still `"auto"`; with exactly one descriptor it carries
exactly one translated definition whose name equals the descriptor's
name. -/
theorem request_tools_translation (systemPrompt model : String)
    (temperature : Rat) (messages : List AIMessage) (t : ToolDescriptor) :
    (mkRequest systemPrompt model temperature messages []).tools = [] ∧
    (mkRequest systemPrompt model temperature messages []).tool_choice
      = "auto" ∧
    (mkRequest systemPrompt model temperature messages [t]).tools
      = [zodFunction t] ∧
    ((mkRequest systemPrompt model temperature messages [t]).tools).map
        (fun ft => ft.function.name) = [t.name] := by
  refine ⟨rfl, rfl, rfl, ?_⟩
  simp [mkRequest, zodFunction]

/-- C7: `getMessages` on the empty store returns the empty sequence, and on
a store holding exactly the messages appended by `addMessages` it returns
those messages in original order (the metadata fields are absent by the
return type). -/
theorem getMessages_empty_and_roundtrip (msgs : List AIMessage) (g : Gen) :
    getMessages defaultData = [] ∧
    getMessages (addMessages msgs defaultData g).1 = msgs := by
  refine ⟨rfl, ?_⟩
  rw [getMessages_addMessages]
  rfl

/-- C8: the persisted append is all-or-nothing: a failed write reports an
error and leaves the on-disk state exactly the prior state, and a
successful write records the whole prior state followed by every given
message, enriched. -/
theorem addMessagesPersist_all_or_nothing
    (msgs : List AIMessage) (d : Data) (g : Gen) :
    ((addMessagesPersist msgs d g false).1 = .error "PersistenceError" ∧
      (addMessagesPersist msgs d g false).2.1 = d) ∧
    ((addMessagesPersist msgs d g true).1 = .ok () ∧
      ((addMessagesPersist msgs d g true).2.1).messages
        = d.messages ++ (addMetadataList msgs g).1) := by
  refine ⟨⟨rfl, rfl⟩, rfl, ?_⟩
  simp [addMessagesPersist, addMessages]

/-- C9: two successive enrichment calls draw from distinct generator
positions, so when the external identity generator yields distinct ids at
those positions and the external clock is non-decreasing there, the two
stored messages have different ids and non-decreasing timestamps. -/
theorem enrich_twice_fresh_id_monotone_time (m : AIMessage) (g : Gen)
    (hid : g.ids g.pos ≠ g.ids (g.pos + 1))
    (hclk : g.clock g.pos ≤ g.clock (g.pos + 1)) :
    (addMetadata m g).1.id ≠ (addMetadata m (addMetadata m g).2).1.id ∧
    (addMetadata m g).1.createdAt
      ≤ (addMetadata m (addMetadata m g).2).1.createdAt := by
  exact ⟨hid, hclk⟩

/-- Witness for C9 at a concrete generator whose ids are distinct numerals
and whose clock is constant. -/
theorem enrich_twice_fresh_id_monotone_time_witness :
    (addMetadata { role := .user, content := "hi" }
        { ids := fun n => toString n, clock := fun _ => "t", pos := 0 }).1.id
      ≠ (addMetadata { role := .user, content := "hi" }
          (addMetadata { role := .user, content := "hi" }
            { ids := fun n => toString n, clock := fun _ => "t",
              pos := 0 }).2).1.id :=
  (enrich_twice_fresh_id_monotone_time
    { role := .user, content := "hi" }
    { ids := fun n => toString n, clock := fun _ => "t", pos := 0 }
    (by decide) (le_refl "t")).1

/-- C10: `runLLM` returns `response.choices[0].message` unguarded: whenever
the response has at least one choice the access is safe and yields the
first choice's message, and on an empty `choices` list the access is out of
bounds (no message exists to return). -/
theorem extractReply_first_choice (resp : ChatResponse) :
    (resp.choices ≠ [] → (extractReply resp).isSome = true) ∧
    (resp.choices = [] → extractReply resp = none) := by
  constructor
  · intro h
    cases hc : resp.choices with
    | nil => exact absurd hc h
    | cons c cs => simp [extractReply, hc]
  · intro h
    simp [extractReply, h]

/-- Witness for C10: a one-choice response yields a reply and the empty
response yields none. -/
theorem extractReply_first_choice_witness :
    (extractReply
        (ChatResponse.mk [Choice.mk (AIMessage.mk .assistant "ok" none)])).isSome
      = true ∧
    extractReply (ChatResponse.mk []) = none :=
  ⟨(extractReply_first_choice
      (ChatResponse.mk [Choice.mk (AIMessage.mk .assistant "ok" none)])).1
      (by simp),
   (extractReply_first_choice (ChatResponse.mk [])).2 rfl⟩

end Agent
